import Mathlib

/-!
Shallow embedding of the `react-native-animation` hooks:
animation composition trees issued by each hook, the synchronous
`setValue` short-circuit paths, React effect re-run semantics for the
bottom-sheet hook, the readiness-gate state machine, and the
worklet-variant duration resolution.
-/

namespace RNAnim

/-- Easing curves that appear in the sources, as an abstract enumeration
(the factory and hooks only pass them through to the engine). -/
inductive Easing where
  | easeOutQuad
  | ease
  | easeOutCubic
  | linear
  deriving DecidableEq, Repr

/-- Animation composition tree, mirroring the shapes built from
`Animated.timing`, `Animated.spring`, `Animated.sequence`,
`Animated.parallel`.  `σ` is the hook-specific set of animatable scalars.
`easing = none` models a timing call with no explicit easing field. -/
inductive Anim (σ : Type) where
  | timing (value : σ) (toValue : ℚ) (duration : ℚ) (easing : Option Easing)
      (useNativeDriver : Bool)
  | spring (value : σ) (toValue : ℚ) (tension : ℚ) (friction : ℚ)
      (useNativeDriver : Bool)
  | sequence (anims : List (Anim σ))
  | parallel (anims : List (Anim σ))

/-- What a hook's mount/update effect does: either synchronously call
`value.setValue(x)` or start a composition with `.start()`. -/
inductive EffectAction (σ : Type) where
  | setValue (value : σ) (x : ℚ)
  | startAnim (a : Anim σ)

/-- Apply one effect action to the current scalar values: `setValue`
writes synchronously; `startAnim` only issues the animation, so at zero
elapsed animation frames it does not change any current value. -/
def applyAction {σ : Type} [DecidableEq σ] (s : σ → ℚ) :
    EffectAction σ → (σ → ℚ)
  | .setValue v x => fun w => if w = v then x else s w
  | .startAnim _ => s

/-- Run a hook effect body (a list of actions) over the scalar values,
observed at zero elapsed animation frames. -/
def applyEffects {σ : Type} [DecidableEq σ] (acts : List (EffectAction σ))
    (s : σ → ℚ) : σ → ℚ :=
  acts.foldl applyAction s

/-- The members issued together when a node is reached: a `parallel`
node issues all its children in the same tick; any other node is issued
alone. -/
def parMembers {σ : Type} : Anim σ → List (Anim σ)
  | .parallel ms => ms
  | a => [a]

/-- Issue batches of a composition under the engine's ordering contract:
within a `sequence`, batch N+1 is issued only after batch N has settled;
within a `parallel`, all members are issued in the same tick. -/
def issueBatches {σ : Type} : Anim σ → List (List (Anim σ))
  | .sequence gs => gs.map parMembers
  | .parallel ms => [ms]
  | a => [[a]]

/-! ## Staggered entrance hook (`src/hooks/useStaggeredEntrance.ts`) -/

/-- The eight animated scalars returned by `useStaggeredEntrance`. -/
inductive EntranceScalar where
  | iconScale
  | iconOpacity
  | titleOpacity
  | titleTranslateY
  | descriptionOpacity
  | descriptionTranslateY
  | featuresOpacity
  | featuresTranslateY
  deriving DecidableEq, Repr

/-- Options of `useStaggeredEntrance`, with the source defaults. -/
structure UseStaggeredEntranceOptions where
  delay : ℚ := 100
  duration : ℚ := 600
  translateYOffset : ℚ := 30
  enabled : Bool := true

/-- Initial values of the eight `Animated.Value` refs created on mount. -/
def staggeredInitial (o : UseStaggeredEntranceOptions) : EntranceScalar → ℚ
  | .iconScale => 0
  | .iconOpacity => 0
  | .titleOpacity => 0
  | .titleTranslateY => o.translateYOffset
  | .descriptionOpacity => 0
  | .descriptionTranslateY => o.translateYOffset
  | .featuresOpacity => 0
  | .featuresTranslateY => o.translateYOffset

/-- The four-group staggered composition built when `enabled` is true. -/
def staggeredSequence (o : UseStaggeredEntranceOptions) : Anim EntranceScalar :=
  .sequence [
    .parallel [
      .spring .iconScale 1 50 7 true,
      .timing .iconOpacity 1 (o.duration * (4 / 5)) none true],
    .parallel [
      .timing .titleOpacity 1 o.duration none true,
      .spring .titleTranslateY 0 50 8 true],
    .parallel [
      .timing .descriptionOpacity 1 o.duration none true,
      .spring .descriptionTranslateY 0 50 8 true],
    .parallel [
      .timing .featuresOpacity 1 o.duration none true,
      .spring .featuresTranslateY 0 50 8 true]]

/-- Body of the mount effect of `useStaggeredEntrance`: the disabled
branch sets every scalar to its terminal value and returns; the enabled
branch starts the staggered sequence. -/
def useStaggeredEntranceEffect (o : UseStaggeredEntranceOptions) :
    List (EffectAction EntranceScalar) :=
  if !o.enabled then
    [.setValue .iconScale 1,
     .setValue .iconOpacity 1,
     .setValue .titleOpacity 1,
     .setValue .titleTranslateY 0,
     .setValue .descriptionOpacity 1,
     .setValue .descriptionTranslateY 0,
     .setValue .featuresOpacity 1,
     .setValue .featuresTranslateY 0]
  else
    [.startAnim (staggeredSequence o)]

/-! ## Splash hook (`src/hooks/useSplashAnimation.ts`) -/

/-- The three animated scalars returned by `useSplashAnimation`. -/
inductive SplashScalar where
  | fadeAnim
  | scaleAnim
  | slideAnim
  deriving DecidableEq, Repr

/-- Options of `useSplashAnimation`, with the source defaults. -/
structure UseSplashAnimationOptions where
  fadeDuration : ℚ := 1000
  springTension : ℚ := 100
  springFriction : ℚ := 8
  slideDuration : ℚ := 800
  slideOffset : ℚ := 50
  enabled : Bool := true

/-- Initial values of the three `Animated.Value` refs created on mount. -/
def splashInitial (o : UseSplashAnimationOptions) : SplashScalar → ℚ
  | .fadeAnim => 0
  | .scaleAnim => 4 / 5
  | .slideAnim => o.slideOffset

/-- The parallel group started by the splash hook when `enabled` is true. -/
def splashParallel (o : UseSplashAnimationOptions) : Anim SplashScalar :=
  .parallel [
    .timing .fadeAnim 1 o.fadeDuration none true,
    .spring .scaleAnim 1 o.springTension o.springFriction true,
    .timing .slideAnim 0 o.slideDuration none true]

/-- Body of the mount effect of `useSplashAnimation`. -/
def useSplashAnimationEffect (o : UseSplashAnimationOptions) :
    List (EffectAction SplashScalar) :=
  if !o.enabled then
    [.setValue .fadeAnim 1,
     .setValue .scaleAnim 1,
     .setValue .slideAnim 0]
  else
    [.startAnim (splashParallel o)]

/-! ## Bottom-sheet hook (`lib/hooks/useBottomSheetAnimation.js`) -/

/-- The two animated scalars returned by `useBottomSheetAnimation`. -/
inductive SheetScalar where
  | slideAnim
  | backdropOpacity
  deriving DecidableEq, Repr

/-- Options of `useBottomSheetAnimation`, with the source defaults. -/
structure UseBottomSheetAnimationOptions where
  duration : ℚ := 300
  closeDuration : ℚ := 250
  deriving DecidableEq

/-- Initial values of the two refs: `slideAnim` starts at the host
screen height (`Dimensions.get('window').height`), backdrop at 0. -/
def sheetInitial (screenHeight : ℚ) : SheetScalar → ℚ
  | .slideAnim => screenHeight
  | .backdropOpacity => 0

/-- The parallel pair started on the `visible = true` branch. -/
def sheetOpenAnim (o : UseBottomSheetAnimationOptions) : Anim SheetScalar :=
  .parallel [
    .timing .slideAnim 0 o.duration none true,
    .timing .backdropOpacity 1 o.duration none true]

/-- The parallel pair started on the `visible = false` branch. -/
def sheetCloseAnim (o : UseBottomSheetAnimationOptions) (screenHeight : ℚ) :
    Anim SheetScalar :=
  .parallel [
    .timing .slideAnim screenHeight o.closeDuration none true,
    .timing .backdropOpacity 0 o.closeDuration none true]

/-- Body of the effect of `useBottomSheetAnimation` for one observed
value of `visible`. -/
def useBottomSheetAnimationEffect (visible : Bool)
    (o : UseBottomSheetAnimationOptions) (screenHeight : ℚ) :
    List (EffectAction SheetScalar) :=
  if visible then [.startAnim (sheetOpenAnim o)]
  else [.startAnim (sheetCloseAnim o screenHeight)]

/-- One render of the component that calls the bottom-sheet hook: the
`visible` argument and the two option values passed on that render. -/
structure SheetRenderInput where
  visible : Bool
  duration : ℚ := 300
  closeDuration : ℚ := 250
  deriving DecidableEq

/-- The effect's dependency array `[visible, duration, closeDuration,
slideAnim, backdropOpacity]`; the two refs are referentially stable
across renders, so only the first three entries can change. -/
def sheetDeps (i : SheetRenderInput) : Bool × ℚ × ℚ :=
  (i.visible, i.duration, i.closeDuration)

/-- React effect semantics: the effect runs on the first render and on
every render whose dependency array differs from the previous one. -/
def sheetEffectFires : Option SheetRenderInput → SheetRenderInput → Bool
  | none, _ => true
  | some prev, cur => decide (sheetDeps prev ≠ sheetDeps cur)

/-- Per-render effect activity of the bottom-sheet hook: for each render
in turn, the list of actions the effect performs on that render (empty
when the dependency array is unchanged so the effect does not re-run). -/
def sheetTrace (screenHeight : ℚ) :
    Option SheetRenderInput → List SheetRenderInput →
    List (List (EffectAction SheetScalar))
  | _, [] => []
  | prev, cur :: rest =>
    (if sheetEffectFires prev cur then
        useBottomSheetAnimationEffect cur.visible
          ⟨cur.duration, cur.closeDuration⟩ screenHeight
      else []) :: sheetTrace screenHeight (some cur) rest

/-! ## Preset table and factory (`lib/utils/animationPresets.js`) -/

/-- `AnimationTimingConfig` of the preset module: `duration` required,
`easing` and `useNativeDriver` optional (`none` = absent in JS). -/
structure AnimationTimingPreset where
  duration : ℚ
  easing : Option Easing := none
  useNativeDriver : Option Bool := none
  deriving DecidableEq

/-- `AnimationSpringConfig` of the preset module. -/
structure AnimationSpringPreset where
  tension : ℚ
  friction : ℚ
  useNativeDriver : Option Bool := none
  deriving DecidableEq

/-- The `AnimationPresets` table (timing entries and spring entries). -/
structure AnimationPresetsTable where
  fast : AnimationTimingPreset
  normal : AnimationTimingPreset
  slow : AnimationTimingPreset
  spring : AnimationSpringPreset
  springGentle : AnimationSpringPreset

/-- The literal `AnimationPresets` constant of the source. -/
def AnimationPresets : AnimationPresetsTable :=
  { fast := { duration := 200, easing := some .easeOutQuad,
              useNativeDriver := some true }
    normal := { duration := 300, easing := some .easeOutQuad,
                useNativeDriver := some true }
    slow := { duration := 500, easing := some .easeOutQuad,
              useNativeDriver := some true }
    spring := { tension := 100, friction := 8, useNativeDriver := some true }
    springGentle := { tension := 50, friction := 7,
                      useNativeDriver := some true } }

/-- `createTimingAnimation(value, toValue, preset = AnimationPresets.normal)`:
builds `Animated.timing(value, { toValue, duration: preset.duration,
easing: preset.easing, useNativeDriver: preset.useNativeDriver ?? true })`. -/
def createTimingAnimation {σ : Type} (value : σ) (toValue : ℚ)
    (preset : AnimationTimingPreset := AnimationPresets.normal) : Anim σ :=
  .timing value toValue preset.duration preset.easing
    (preset.useNativeDriver.getD true)

/-- `createSpringAnimation(value, toValue, preset = AnimationPresets.spring)`. -/
def createSpringAnimation {σ : Type} (value : σ) (toValue : ℚ)
    (preset : AnimationSpringPreset := AnimationPresets.spring) : Anim σ :=
  .spring value toValue preset.tension preset.friction
    (preset.useNativeDriver.getD true)

/-! ## Readiness gate (`src/presentation/hooks/useReanimatedReady.ts`)

The hook sets a timer for a fixed delay; when it fires, a chain of
`requestAnimationFrame` callbacks is scheduled (3, 4 or 5 deep across the
near-duplicate copies), the innermost of which calls `setIsReady(true)`.
The effect cleanup runs `clearTimeout(timer)` and nothing else: it does
not cancel an already-scheduled animation-frame chain. -/

/-- Runtime state of one mounted instance of `useReanimatedReady`.
`pendingFrames = some k` means the animation-frame chain is scheduled
and the `setIsReady(true)` call sits `k` frames away.
`flipCallsAfterUnmount` counts `setIsReady(true)` invocations that
happen after the component has been torn down (React drops the state
update, but the call is still attempted). -/
structure GateState where
  isReady : Bool
  mounted : Bool
  timerPending : Bool
  pendingFrames : Option Nat
  flipCallsAfterUnmount : Nat
  deriving DecidableEq, Repr

/-- State right after mount: flag false, timer armed, no frames pending. -/
def gateInit : GateState :=
  { isReady := false, mounted := true, timerPending := true,
    pendingFrames := none, flipCallsAfterUnmount := 0 }

/-- Events the environment can deliver to a gate instance. -/
inductive GateEvent where
  | timerFire
  | frame
  | unmount
  deriving DecidableEq, Repr

/-- One step of the gate.  `frames` is the depth of the
`requestAnimationFrame` chain of the copy being modelled (3 in
`src/presentation/hooks/useReanimatedReady.ts`, 4 and 5 in the other
copies).  `timerFire` is a no-op once the timer was cleared; `unmount`
runs the cleanup, which clears the timer but leaves any scheduled
animation-frame chain in place; the final `frame` of a pending chain
invokes `setIsReady(true)`, which latches the flag only on a mounted
instance. -/
def gateStep (frames : Nat) (s : GateState) : GateEvent → GateState
  | .timerFire =>
    if s.timerPending then
      { s with timerPending := false, pendingFrames := some frames }
    else s
  | .frame =>
    match s.pendingFrames with
    | none => s
    | some 0 => s
    | some 1 =>
      if s.mounted then { s with pendingFrames := none, isReady := true }
      else { s with pendingFrames := none,
                    flipCallsAfterUnmount := s.flipCallsAfterUnmount + 1 }
    | some (k + 2) => { s with pendingFrames := some (k + 1) }
  | .unmount => { s with mounted := false, timerPending := false }

/-- Run a gate instance from mount through a list of events. -/
def gateRun (frames : Nat) (evs : List GateEvent) : GateState :=
  evs.foldl (gateStep frames) gateInit

/-! ## Worklet-variant hook (`useAnimation`) and domain constants
(`src/domain/entities/Animation.ts`) -/

/-- The table under `ANIMATION_CONSTANTS.DURATION`. -/
structure DurationConstantsTable where
  INSTANT : ℚ
  FAST : ℚ
  NORMAL : ℚ
  SLOW : ℚ
  VERY_SLOW : ℚ

/-- The table under `ANIMATION_CONSTANTS.SPRING`. -/
structure SpringConstantsTable where
  DAMPING : ℚ
  STIFFNESS : ℚ
  MASS : ℚ

/-- `ANIMATION_CONSTANTS` of the domain layer. -/
structure AnimationConstantsTable where
  DURATION : DurationConstantsTable
  SPRING : SpringConstantsTable

/-- The literal `ANIMATION_CONSTANTS` constant of the source. -/
def ANIMATION_CONSTANTS : AnimationConstantsTable :=
  { DURATION := { INSTANT := 0, FAST := 200, NORMAL := 300,
                  SLOW := 500, VERY_SLOW := 1000 }
    SPRING := { DAMPING := 10, STIFFNESS := 100, MASS := 1 } }

/-- The `AnimationPreset` enum of the domain layer. -/
inductive AnimationPresetKind where
  | fadeIn
  | fadeOut
  | slideInUp
  | slideInDown
  | slideInLeft
  | slideInRight
  | scaleIn
  | scaleOut
  | bounce
  | shake
  deriving DecidableEq, Repr

/-- `AnimationTimingConfig` of the domain layer: `duration` optional
(`none` models an absent/undefined field in JS). -/
structure WorkletTimingConfig where
  duration : Option ℚ := none
  deriving DecidableEq

/-- `AnimationUtils.getTimingConfig`: the per-preset timing table. -/
def getTimingConfig : AnimationPresetKind → WorkletTimingConfig
  | .fadeIn => { duration := some ANIMATION_CONSTANTS.DURATION.NORMAL }
  | .fadeOut => { duration := some ANIMATION_CONSTANTS.DURATION.NORMAL }
  | .slideInUp => { duration := some ANIMATION_CONSTANTS.DURATION.NORMAL }
  | .slideInDown => { duration := some ANIMATION_CONSTANTS.DURATION.NORMAL }
  | .slideInLeft => { duration := some ANIMATION_CONSTANTS.DURATION.NORMAL }
  | .slideInRight => { duration := some ANIMATION_CONSTANTS.DURATION.NORMAL }
  | .scaleIn => { duration := some ANIMATION_CONSTANTS.DURATION.FAST }
  | .scaleOut => { duration := some ANIMATION_CONSTANTS.DURATION.FAST }
  | .bounce => { duration := some ANIMATION_CONSTANTS.DURATION.SLOW }
  | .shake => { duration := some ANIMATION_CONSTANTS.DURATION.FAST }

/-- JavaScript `x || d` on an optional number: both `undefined` and `0`
are falsy and fall back to the default. -/
def jsOrDuration (x : Option ℚ) (d : ℚ) : ℚ :=
  match x with
  | none => d
  | some v => if v = 0 then d else v

/-- The observable shape of one `withTiming` call issued by the hook. -/
structure TimingCommand where
  target : ℚ
  duration : ℚ
  easing : Easing
  deriving DecidableEq

/-- `fadeIn(config?)`: `withTiming(1, { duration: timing.duration ||
NORMAL, easing: Easing.ease })` where `timing` is the config or the
`FADE_IN` preset. -/
def fadeIn (config : Option WorkletTimingConfig) : TimingCommand :=
  let timing := config.getD (getTimingConfig .fadeIn)
  { target := 1,
    duration := jsOrDuration timing.duration ANIMATION_CONSTANTS.DURATION.NORMAL,
    easing := .ease }

/-- `fadeOut(config?)`: same resolution, target 0. -/
def fadeOut (config : Option WorkletTimingConfig) : TimingCommand :=
  let timing := config.getD (getTimingConfig .fadeOut)
  { target := 0,
    duration := jsOrDuration timing.duration ANIMATION_CONSTANTS.DURATION.NORMAL,
    easing := .ease }

/-- The observable shape of one slide-in call: the synchronous write
that sets the translation offset, then the `withTiming(0, …)` command. -/
structure SlideCommand where
  setTo : ℚ
  command : TimingCommand
  deriving DecidableEq

/-- `slideInUp(distance = 100, config?)`. -/
def slideInUp (distance : ℚ := 100) (config : Option WorkletTimingConfig) :
    SlideCommand :=
  let timing := config.getD (getTimingConfig .slideInUp)
  let cmd : TimingCommand :=
    { target := 0,
      duration := jsOrDuration timing.duration ANIMATION_CONSTANTS.DURATION.NORMAL,
      easing := .easeOutCubic }
  { setTo := distance, command := cmd }

/-- `slideInDown(distance = 100, config?)`. -/
def slideInDown (distance : ℚ := 100) (config : Option WorkletTimingConfig) :
    SlideCommand :=
  let timing := config.getD (getTimingConfig .slideInDown)
  let cmd : TimingCommand :=
    { target := 0,
      duration := jsOrDuration timing.duration ANIMATION_CONSTANTS.DURATION.NORMAL,
      easing := .easeOutCubic }
  { setTo := -distance, command := cmd }

/-- `slideInLeft(distance = 100, config?)`. -/
def slideInLeft (distance : ℚ := 100) (config : Option WorkletTimingConfig) :
    SlideCommand :=
  let timing := config.getD (getTimingConfig .slideInLeft)
  let cmd : TimingCommand :=
    { target := 0,
      duration := jsOrDuration timing.duration ANIMATION_CONSTANTS.DURATION.NORMAL,
      easing := .easeOutCubic }
  { setTo := -distance, command := cmd }

/-- `slideInRight(distance = 100, config?)`. -/
def slideInRight (distance : ℚ := 100) (config : Option WorkletTimingConfig) :
    SlideCommand :=
  let timing := config.getD (getTimingConfig .slideInRight)
  let cmd : TimingCommand :=
    { target := 0,
      duration := jsOrDuration timing.duration ANIMATION_CONSTANTS.DURATION.NORMAL,
      easing := .easeOutCubic }
  { setTo := distance, command := cmd }

/-! ## Terminal values and invariant predicates used by the theorems -/

/-- Terminal values of the entrance scalars (the values the disabled
branch writes, and the targets of the enabled composition). -/
def staggeredTerminal : EntranceScalar → ℚ
  | .iconScale => 1
  | .iconOpacity => 1
  | .titleOpacity => 1
  | .titleTranslateY => 0
  | .descriptionOpacity => 1
  | .descriptionTranslateY => 0
  | .featuresOpacity => 1
  | .featuresTranslateY => 0

/-- Terminal values of the splash scalars. -/
def splashTerminal : SplashScalar → ℚ
  | .fadeAnim => 1
  | .scaleAnim => 1
  | .slideAnim => 0

/-- A gate instance with nothing scheduled and nothing ever flipped:
no pending animation-frame chain, flag still false, and no
`setIsReady` call has been attempted after teardown. -/
def gateDead (s : GateState) : Prop :=
  s.pendingFrames = none ∧ s.isReady = false ∧ s.flipCallsAfterUnmount = 0

/-! ## Shared helper lemmas -/

/-- A predicate preserved by every step of a fold holds of the result. -/
theorem foldl_preserves {α β : Type} (f : β → α → β) (P : β → Prop)
    (l : List α) (s : β) (hs : P s)
    (h : ∀ t a, P t → a ∈ l → P (f t a)) : P (l.foldl f s) := by
  induction l generalizing s with
  | nil => exact hs
  | cons a l ih =>
    exact ih _ (h s a hs (by simp)) fun t b hb hmem => h t b hb (by simp [hmem])

/-- `gateStep` never lowers the readiness flag: once `isReady` is true
it stays true after any event. -/
theorem gateStep_ready_mono (frames : Nat) (s : GateState) (e : GateEvent)
    (h : s.isReady = true) : (gateStep frames s e).isReady = true := by
  cases e with
  | timerFire => by_cases ht : s.timerPending <;> simp [gateStep, ht, h]
  | frame =>
    rcases hp : s.pendingFrames with _ | _ | _ | k <;>
      simp only [gateStep, hp] <;>
      first
        | exact h
        | (split <;> first | rfl | exact h)
  | unmount => simp [gateStep, h]

/-- A dead gate stays dead under any event except a timer firing. -/
theorem gateStep_dead_of_ne_timer (frames : Nat) (s : GateState)
    (e : GateEvent) (hd : gateDead s) (he : e ≠ GateEvent.timerFire) :
    gateDead (gateStep frames s e) := by
  obtain ⟨h1, h2, h3⟩ := hd
  cases e with
  | timerFire => exact absurd rfl he
  | frame => simp [gateStep, h1, gateDead, h2, h3]
  | unmount => simp [gateStep, gateDead, h1, h2, h3]

/-- A dead gate whose timer has been cleared stays dead and cleared
under every event, including a (now no-op) timer firing. -/
theorem gateStep_dead_cleared (frames : Nat) (s : GateState) (e : GateEvent)
    (hd : gateDead s ∧ s.timerPending = false) :
    gateDead (gateStep frames s e) ∧ (gateStep frames s e).timerPending = false := by
  obtain ⟨⟨h1, h2, h3⟩, ht⟩ := hd
  cases e with
  | timerFire => simp [gateStep, ht, gateDead, h1, h2, h3]
  | frame => simp [gateStep, h1, gateDead, h2, h3, ht]
  | unmount => simp [gateStep, gateDead, h1, h2, h3]

/-! ## Claim theorems -/

/-- C1: with `enabled = true`, the staggered entrance hook starts exactly
one composition on mount — a strict sequence of four parallel groups:
(1) icon scale spring (tension 50, friction 7, target 1) with icon
opacity timing of duration `duration * 0.8` to 1; (2) title opacity
timing of the configured duration to 1 with title translateY spring
(tension 50, friction 8) to 0; (3) the same pair for description;
(4) the same pair for features.  Under the engine's sequence contract
(`issueBatches`), a later group is issued only after the previous
parallel group has settled. -/
theorem staggered_enabled_strict_sequence (o : UseStaggeredEntranceOptions)
    (h : o.enabled = true) :
    useStaggeredEntranceEffect o =
      [.startAnim (staggeredSequence o)] ∧
    issueBatches (staggeredSequence o) =
      [[.spring .iconScale 1 50 7 true,
        .timing .iconOpacity 1 (o.duration * (4 / 5)) none true],
       [.timing .titleOpacity 1 o.duration none true,
        .spring .titleTranslateY 0 50 8 true],
       [.timing .descriptionOpacity 1 o.duration none true,
        .spring .descriptionTranslateY 0 50 8 true],
       [.timing .featuresOpacity 1 o.duration none true,
        .spring .featuresTranslateY 0 50 8 true]] := by
  exact ⟨by simp [useStaggeredEntranceEffect, h], rfl⟩

/-- Witness for C1 at the default options (where `enabled = true`). -/
theorem staggered_enabled_strict_sequence_witness :
    useStaggeredEntranceEffect {} = [.startAnim (staggeredSequence {})] :=
  (staggered_enabled_strict_sequence {} rfl).1

/-- C4: with `enabled = false`, the staggered entrance hook starts no
animation, and after its synchronous mount effect every returned scalar
reads its terminal value (iconScale 1, iconOpacity 1, titleOpacity 1,
titleTranslateY 0, descriptionOpacity 1, descriptionTranslateY 0,
featuresOpacity 1, featuresTranslateY 0) at zero elapsed frames. -/
theorem staggered_disabled_terminal (o : UseStaggeredEntranceOptions)
    (h : o.enabled = false) :
    (∀ a : Anim EntranceScalar,
        EffectAction.startAnim a ∉ useStaggeredEntranceEffect o) ∧
    ∀ s : EntranceScalar,
      applyEffects (useStaggeredEntranceEffect o) (staggeredInitial o) s =
        staggeredTerminal s := by
  constructor
  · intro a hmem
    simp [useStaggeredEntranceEffect, h] at hmem
  · intro s
    cases s <;>
      simp [useStaggeredEntranceEffect, h, applyEffects, applyAction,
        staggeredInitial, staggeredTerminal]

/-- Witness for C4 at `{ enabled := false }`. -/
theorem staggered_disabled_terminal_witness :
    applyEffects (useStaggeredEntranceEffect { enabled := false })
        (staggeredInitial { enabled := false })
        EntranceScalar.featuresTranslateY = 0 :=
  (staggered_disabled_terminal { enabled := false } rfl).2 .featuresTranslateY

/-- C6: the `delay` option of the staggered entrance hook never changes
the observable behavior within one mount: for any two delay values and
otherwise identical options, the mount effect (hence the issued
composition) and the initial scalar values are identical. -/
theorem staggered_delay_has_no_effect (o : UseStaggeredEntranceOptions)
    (d1 d2 : ℚ) :
    useStaggeredEntranceEffect { o with delay := d1 } =
      useStaggeredEntranceEffect { o with delay := d2 } ∧
    staggeredInitial { o with delay := d1 } =
      staggeredInitial { o with delay := d2 } := by
  cases o
  exact ⟨rfl, rfl⟩

/-- C3: the splash hook's scalars start at fade 0, scale 0.8, slide
`slideOffset`; with `enabled = false` it synchronously writes fade 1,
scale 1, slide 0 and starts no animation; with `enabled = true` it
starts exactly one parallel group — issued in one tick, with no
sequencing — containing the fade timing (`fadeDuration`, target 1), the
scale spring (`springTension`, `springFriction`, target 1) and the
slide timing (`slideDuration`, target 0). -/
theorem splash_hook_spec (o : UseSplashAnimationOptions) :
    (splashInitial o .fadeAnim = 0 ∧ splashInitial o .scaleAnim = 4 / 5 ∧
      splashInitial o .slideAnim = o.slideOffset) ∧
    (o.enabled = false →
      (∀ a : Anim SplashScalar,
          EffectAction.startAnim a ∉ useSplashAnimationEffect o) ∧
      ∀ s : SplashScalar,
        applyEffects (useSplashAnimationEffect o) (splashInitial o) s =
          splashTerminal s) ∧
    (o.enabled = true →
      useSplashAnimationEffect o = [.startAnim (splashParallel o)] ∧
      issueBatches (splashParallel o) =
        [[.timing .fadeAnim 1 o.fadeDuration none true,
          .spring .scaleAnim 1 o.springTension o.springFriction true,
          .timing .slideAnim 0 o.slideDuration none true]]) := by
  refine ⟨⟨rfl, rfl, rfl⟩, fun h => ⟨?_, ?_⟩, fun h => ⟨?_, rfl⟩⟩
  · intro a hmem
    simp [useSplashAnimationEffect, h] at hmem
  · intro s
    cases s <;>
      simp [useSplashAnimationEffect, h, applyEffects, applyAction,
        splashInitial, splashTerminal]
  · simp [useSplashAnimationEffect, h]

/-- Witness for C3 at `{ enabled := false }` and at the defaults. -/
theorem splash_hook_spec_witness :
    applyEffects (useSplashAnimationEffect { enabled := false })
        (splashInitial { enabled := false }) SplashScalar.fadeAnim = 1 ∧
    useSplashAnimationEffect {} = [.startAnim (splashParallel {})] :=
  ⟨((splash_hook_spec { enabled := false }).2.1 rfl).2 .fadeAnim,
   ((splash_hook_spec {}).2.2 rfl).1⟩

/-- C2: the bottom-sheet scalars start at `slideAnim = screenHeight`
and `backdropOpacity = 0`; the option defaults are `duration = 300` and
`closeDuration = 250`; on every observed `visible` the effect starts a
parallel pair of timings: toward 0 and 1 with `duration` when visible,
toward `screenHeight` and 0 with `closeDuration` when not visible. -/
theorem sheet_hook_spec (visible : Bool) (o : UseBottomSheetAnimationOptions)
    (screenHeight : ℚ) :
    sheetInitial screenHeight .slideAnim = screenHeight ∧
    sheetInitial screenHeight .backdropOpacity = 0 ∧
    ({} : UseBottomSheetAnimationOptions).duration = 300 ∧
    ({} : UseBottomSheetAnimationOptions).closeDuration = 250 ∧
    (visible = true →
      useBottomSheetAnimationEffect visible o screenHeight =
        [.startAnim (.parallel [
            .timing .slideAnim 0 o.duration none true,
            .timing .backdropOpacity 1 o.duration none true])]) ∧
    (visible = false →
      useBottomSheetAnimationEffect visible o screenHeight =
        [.startAnim (.parallel [
            .timing .slideAnim screenHeight o.closeDuration none true,
            .timing .backdropOpacity 0 o.closeDuration none true])]) := by
  refine ⟨rfl, rfl, rfl, rfl, fun h => ?_, fun h => ?_⟩ <;>
    simp [useBottomSheetAnimationEffect, h, sheetOpenAnim, sheetCloseAnim]

/-- Witness for C2 at both values of `visible`, default options,
screen height 800. -/
theorem sheet_hook_spec_witness :
    useBottomSheetAnimationEffect true {} 800 =
      [.startAnim (.parallel [
          .timing .slideAnim 0 300 none true,
          .timing .backdropOpacity 1 300 none true])] ∧
    useBottomSheetAnimationEffect false {} 800 =
      [.startAnim (.parallel [
          .timing .slideAnim 800 250 none true,
          .timing .backdropOpacity 0 250 none true])] :=
  ⟨(sheet_hook_spec true {} 800).2.2.2.2.1 rfl,
   (sheet_hook_spec false {} 800).2.2.2.2.2 rfl⟩

/-- C5: `createTimingAnimation(v, t)` without a preset argument builds
exactly the timing of the "normal" preset — duration 300, ease-out-quad
easing, native driver true — and for an explicit preset every supplied
field (duration, easing, useNativeDriver) is used in place of the
default, with the absent `useNativeDriver` falling back to true. -/
theorem createTimingAnimation_preset_resolution {σ : Type} (v : σ) (t : ℚ) :
    createTimingAnimation v t = createTimingAnimation v t AnimationPresets.normal ∧
    createTimingAnimation v t =
      Anim.timing v t 300 (some .easeOutQuad) true ∧
    (∀ p : AnimationTimingPreset,
      createTimingAnimation v t p =
        Anim.timing v t p.duration p.easing (p.useNativeDriver.getD true)) :=
  ⟨rfl, rfl, fun _ => rfl⟩

/-- C7 counterexample: two successive renders with `visible = true` on
both and `duration` changed from 300 to 400.  The claim says no new
animation is issued until the next toggle of `visible`; on the code, the
effect's dependency array contains `duration` and `closeDuration`, so
the second render immediately starts a fresh open animation with the
new duration 400. -/
theorem sheet_duration_change_counterexample :
    sheetTrace 800 none
        [{ visible := true }, { visible := true, duration := 400 }] =
      [[.startAnim (sheetOpenAnim {})],
       [.startAnim (sheetOpenAnim { duration := 400 })]] ∧
    ({ visible := true } : SheetRenderInput).visible =
      ({ visible := true, duration := 400 } : SheetRenderInput).visible := by
  exact ⟨rfl, rfl⟩

/-- C7 amended: changing `duration` or `closeDuration` while `visible`
stays unchanged re-runs the effect immediately — the new render issues
a new animation for the current `visible` direction with the new
parameter values at once, rather than waiting for the next toggle of
`visible`. -/
theorem sheet_option_change_restarts_immediately
    (prev cur : SheetRenderInput) (screenHeight : ℚ)
    (rest : List SheetRenderInput) (_hvis : cur.visible = prev.visible)
    (hdur : cur.duration ≠ prev.duration ∨
            cur.closeDuration ≠ prev.closeDuration) :
    sheetTrace screenHeight (some prev) (cur :: rest) =
      useBottomSheetAnimationEffect cur.visible
          ⟨cur.duration, cur.closeDuration⟩ screenHeight
        :: sheetTrace screenHeight (some cur) rest := by
  have hne : sheetDeps prev ≠ sheetDeps cur := by
    intro hEq
    rcases hdur with hd | hd <;>
      · apply hd
        have := congrArg (fun p : Bool × ℚ × ℚ => p.2) hEq
        simp [sheetDeps] at this
        simp [this]
  simp [sheetTrace, sheetEffectFires, hne]

/-- Witness for the C7 amended theorem: `visible` stays true while
`duration` changes from 300 to 400; a new open animation with
duration 400 is issued on that very render. -/
theorem sheet_option_change_restarts_immediately_witness :
    sheetTrace 800 (some { visible := true })
        [{ visible := true, duration := 400 }] =
      [[.startAnim (sheetOpenAnim { duration := 400 })]] :=
  sheet_option_change_restarts_immediately { visible := true }
    { visible := true, duration := 400 } 800 [] rfl (Or.inl (by decide))

/-- C8 counterexample: with the 3-frame copy, unmounting after the timer
fired and two frames elapsed — before the flag ever flipped — still lets
the already-scheduled animation-frame chain run: the next frame attempts
`setIsReady(true)` after teardown (the cleanup only clears the timeout),
so one flip attempt happens post-teardown while the flag never flips. -/
theorem gate_unmount_during_frames_counterexample :
    (gateRun 3 [.timerFire, .frame, .frame, .unmount, .frame]).isReady
        = false ∧
    (gateRun 3
        [.timerFire, .frame, .frame, .unmount, .frame]).flipCallsAfterUnmount
        = 1 := by
  exact ⟨rfl, rfl⟩

/-- C8 amended: the cancellation guarantee holds only for unmounts
during the fixed delay.  If the observer unmounts before the timer has
fired, the cleanup's `clearTimeout` discards the pending transition: on
every continuation the flag stays false and no flip is ever attempted
after teardown.  (Unmounting during the deferred-frame ticks instead
leaves the scheduled animation-frame chain running, and the flip is
still attempted — see the counterexample.) -/
theorem gate_unmount_during_delay_cancels (frames : Nat)
    (pre post : List GateEvent) (hpre : GateEvent.timerFire ∉ pre) :
    (gateRun frames (pre ++ GateEvent.unmount :: post)).isReady = false ∧
    (gateRun frames
        (pre ++ GateEvent.unmount :: post)).flipCallsAfterUnmount = 0 := by
  have hdead : gateDead (pre.foldl (gateStep frames) gateInit) := by
    refine foldl_preserves (gateStep frames) gateDead pre gateInit
      ⟨rfl, rfl, rfl⟩ fun t a ht ha => ?_
    exact gateStep_dead_of_ne_timer frames t a ht fun hEq => hpre (hEq ▸ ha)
  have hstep :
      gateDead (gateStep frames (pre.foldl (gateStep frames) gateInit)
          GateEvent.unmount) ∧
      (gateStep frames (pre.foldl (gateStep frames) gateInit)
          GateEvent.unmount).timerPending = false := by
    obtain ⟨h1, h2, h3⟩ := hdead
    exact ⟨⟨h1, h2, h3⟩, rfl⟩
  have hfin := foldl_preserves (gateStep frames)
    (fun s => gateDead s ∧ s.timerPending = false) post _ hstep
    fun t a ht _ => gateStep_dead_cleared frames t a ht
  rw [gateRun, List.foldl_append, List.foldl_cons]
  exact ⟨hfin.1.2.1, hfin.1.2.2⟩

/-- Witness for the C8 amended theorem: unmount as the first event, then
the timer moment and three frames pass; the flag stays false and no flip
is attempted. -/
theorem gate_unmount_during_delay_cancels_witness :
    (gateRun 3 ([] ++ GateEvent.unmount ::
        [GateEvent.timerFire, .frame, .frame, .frame])).isReady = false ∧
    (gateRun 3 ([] ++ GateEvent.unmount ::
        [GateEvent.timerFire, .frame, .frame, .frame])).flipCallsAfterUnmount
      = 0 :=
  gate_unmount_during_delay_cancels 3 []
    [GateEvent.timerFire, .frame, .frame, .frame] (by simp)

/-- C9: the readiness flag starts false and is latched: once a run of
the gate reads true, every continuation of that run still reads true —
the flag is never reset while the instance lives, so it flips
false→true at most once.  Holds for every frame-chain depth (3, 4, 5
across the copies). -/
theorem gate_ready_latched (frames : Nat) (pre evs : List GateEvent)
    (h : (gateRun frames pre).isReady = true) :
    gateInit.isReady = false ∧
    (gateRun frames (pre ++ evs)).isReady = true := by
  refine ⟨rfl, ?_⟩
  rw [gateRun, List.foldl_append]
  exact foldl_preserves (gateStep frames) (fun s => s.isReady = true) evs _ h
    fun t a ht _ => gateStep_ready_mono frames t a ht

/-- Witness for C9: after the timer fires and three frames elapse the
3-frame gate reads true, and it still reads true after later events. -/
theorem gate_ready_latched_witness :
    gateInit.isReady = false ∧
    (gateRun 3 ([GateEvent.timerFire, .frame, .frame, .frame] ++
        [GateEvent.frame, .unmount])).isReady = true :=
  gate_ready_latched 3 [GateEvent.timerFire, .frame, .frame, .frame]
    [GateEvent.frame, .unmount] rfl

/-- C10: in the worklet-variant hook, an explicit timing config with
duration 0 does not yield an instant transition: the duration is
combined with the default through a JavaScript falsy-or, so 0 falls
back to `ANIMATION_CONSTANTS.DURATION.NORMAL` (300 ms) in `fadeIn`,
`fadeOut` and all four slide-in variants, and the exported `INSTANT`
constant (0) can never take effect through them. -/
theorem worklet_zero_duration_falls_back (c : WorkletTimingConfig)
    (h : c.duration = some 0) :
    ANIMATION_CONSTANTS.DURATION.INSTANT = 0 ∧
    (fadeIn (some c)).duration = ANIMATION_CONSTANTS.DURATION.NORMAL ∧
    (fadeOut (some c)).duration = ANIMATION_CONSTANTS.DURATION.NORMAL ∧
    (slideInUp 100 (some c)).command.duration =
      ANIMATION_CONSTANTS.DURATION.NORMAL ∧
    (slideInDown 100 (some c)).command.duration =
      ANIMATION_CONSTANTS.DURATION.NORMAL ∧
    (slideInLeft 100 (some c)).command.duration =
      ANIMATION_CONSTANTS.DURATION.NORMAL ∧
    (slideInRight 100 (some c)).command.duration =
      ANIMATION_CONSTANTS.DURATION.NORMAL ∧
    ANIMATION_CONSTANTS.DURATION.NORMAL ≠
      ANIMATION_CONSTANTS.DURATION.INSTANT := by
  refine ⟨rfl, ?_, ?_, ?_, ?_, ?_, ?_, by decide⟩ <;>
    simp [fadeIn, fadeOut, slideInUp, slideInDown, slideInLeft, slideInRight,
      jsOrDuration, h]

/-- Witness for C10 at the config `{ duration := some 0 }`. -/
theorem worklet_zero_duration_falls_back_witness :
    (fadeIn (some { duration := some 0 })).duration = 300 :=
  (worklet_zero_duration_falls_back { duration := some 0 } rfl).2.1

end RNAnim
